import Mathlib

/-
Verification of the car-marketplace backend (src/main.py, src/schemas.py).

The endpoints of src/main.py are embedded as Lean functions over an explicit
store state.  Monetary amounts (Python floats used only through `//`, `max`,
and comparisons) are modelled as rationals; Python float floor-division
`a // 10` is `⌊a / 10⌋`.  Document identifiers (Mongo ObjectIds) are modelled
as naturals handed out by the store.

The store adapter `database.py` is imported by src/main.py but is not part of
the sources; its operations are modelled from the spec, see `Store` below.
-/

set_option autoImplicit false

namespace CarMarketplace

/-- Loyalty tiers of `Reward.tier` (src/schemas.py line 71). -/
inductive Tier where
  | Bronze
  | Silver
  | Gold
  | Platinum
deriving DecidableEq, Repr

/-- Embedding of the `Car` pydantic model (src/schemas.py lines 21-39).
String-literal enumerations (`car_type`, `transmission`, `fuel`) are kept as
strings, as they reach the handlers as strings. -/
structure Car where
  owner_email : String
  title : String
  brand : String
  model : String
  year : Int
  images : List String := []
  location : String
  car_type : String := "sedan"
  transmission : String := "automatic"
  fuel : String := "petrol"
  mileage : Option Int := none
  color : Option String := none
  for_rent : Bool := true
  for_sale : Bool := false
  price_per_day : Option ℚ := none
  sale_price : Option ℚ := none
  description : Option String := none
  available : Bool := true
deriving DecidableEq, Repr

/-- Embedding of the `Order` pydantic model (src/schemas.py lines 41-51). -/
structure Order where
  order_type : String
  car_id : Nat
  customer_email : String
  owner_email : String
  status : String := "pending"
  start_date : Option String := none
  end_date : Option String := none
  pickup_location : Option String := none
  total_amount : ℚ
deriving DecidableEq, Repr

/-- Embedding of the `Transaction` pydantic model (src/schemas.py lines 53-60). -/
structure Transaction where
  order_id : Nat
  customer_email : String
  owner_email : String
  amount : ℚ
  currency : String := "USD"
  type : String := "debit"
  description : Option String := none
deriving DecidableEq, Repr

/-- Embedding of the `Notification` pydantic model (src/schemas.py lines 62-66). -/
structure Notification where
  email : String
  title : String
  message : String
  read : Bool := false
deriving DecidableEq, Repr

/-- Embedding of the `Reward` pydantic model (src/schemas.py lines 68-71). -/
structure Reward where
  email : String
  points : Int := 0
  tier : Tier := Tier.Bronze
deriving DecidableEq, Repr

/-- Modelled from the spec: the document store (`database.py`, absent from
src/).  Section 6 of the spec requires from the adapter
`findOne(collection, filter) -> doc?`, `find(collection, filter) -> doc[]`,
`insert(collection, doc) -> id` and `updateOne(collection, filter, patch) ->
matchedCount`.  Each collection is a list of (identifier, document) pairs in
insertion order; `findOne` is the first match, `insert` appends with a fresh
identifier, `updateOne` patches the first match. -/
structure Store where
  cars : List (Nat × Car) := []
  orders : List (Nat × Order) := []
  transactions : List (Nat × Transaction) := []
  notifications : List (Nat × Notification) := []
  rewards : List (Nat × Reward) := []
  nextId : Nat := 0
deriving Repr

/-- Modelled from the spec: `updateOne` of the store adapter patches the first
element satisfying the filter and leaves everything else unchanged. -/
def updateOne {α : Type} (f : α → Bool) (g : α → α) : List α → List α
  | [] => []
  | x :: xs => if f x then g x :: xs else x :: updateOne f g xs

/-- Error responses raised by the handlers (`HTTPException`): 404 and 400. -/
inductive Err where
  | notFound
  | validation
deriving DecidableEq, Repr

/-- Embedding of `create_car` (src/main.py lines 72-77): reject a car that is
neither for sale nor for rent, otherwise insert it and return its id. -/
def create_car (car : Car) (s : Store) : Except Err (Store × Nat) :=
  if !(car.for_sale || car.for_rent) then
    Except.error Err.validation
  else
    Except.ok ({ s with cars := s.cars ++ [(s.nextId, car)], nextId := s.nextId + 1 }, s.nextId)

/-- Embedding of `create_order` (src/main.py lines 129-142): look up the car by
id; 404 when absent (before any write); otherwise insert the order, insert a
notification to the owner, and return the order id. -/
def create_order (order : Order) (s : Store) : Except Err (Store × Nat) :=
  match s.cars.find? (fun p => p.1 == order.car_id) with
  | none => Except.error Err.notFound
  | some _ =>
      let orderId := s.nextId
      let s1 := { s with orders := s.orders ++ [(orderId, order)], nextId := s.nextId + 1 }
      let note : Notification :=
        { email := order.owner_email, title := "New order",
          message := "You have a new " ++ order.order_type ++ " request" }
      Except.ok
        ({ s1 with
            notifications := s1.notifications ++ [(s1.nextId, note)],
            nextId := s1.nextId + 1 },
          orderId)

/-- Embedding of `update_order_status` (src/main.py lines 156-161): set the
status of the first order with the given id; 404 when no order matched. -/
def update_order_status (order_id : Nat) (status : String) (s : Store) : Except Err Store :=
  if s.orders.any (fun p => p.1 == order_id) then
    Except.ok { s with
      orders := updateOne (fun p => p.1 == order_id)
        (fun p => (p.1, { p.2 with status := status })) s.orders }
  else
    Except.error Err.notFound

/-- Python truthiness of an optional string parameter (`if q:` skips both an
absent parameter and the empty string). -/
def strTruthy : Option String → Bool
  | none => false
  | some s => !s.isEmpty

/-- Embedding of `list_orders` (src/main.py lines 144-154): the filter starts
empty; `customer_email` is constrained when the email is truthy and the role
is exactly "customer", `owner_email` when the role is exactly "owner". -/
def buildOrderFilter (email role : Option String) : Option String × Option String :=
  let f : Option String × Option String := (none, none)
  let f := if strTruthy email && (role == some "customer") then (email, f.2) else f
  let f := if strTruthy email && (role == some "owner") then (f.1, email) else f
  f

/-- Modelled from the spec: `find(collection, filter)` returns the documents
matching the filter; an absent constraint matches everything. -/
def optMatch {α : Type} (o : Option α) (p : α → Bool) : Bool :=
  match o with
  | none => true
  | some a => p a

/-- Embedding of `list_orders` (src/main.py lines 144-154). -/
def list_orders (email role : Option String) (s : Store) : List (Nat × Order) :=
  let f := buildOrderFilter email role
  s.orders.filter (fun p =>
    optMatch f.1 (fun e => p.2.customer_email == e) &&
    optMatch f.2 (fun e => p.2.owner_email == e))

/-- Embedding of the points rule of `create_transaction` (src/main.py line 168),
`pts = int(max(1, tx.amount // 10))`: Python float floor-division is the
mathematical floor of the quotient. -/
def earnedPoints (amount : ℚ) : Int :=
  max 1 ⌊amount / 10⌋

/-- Embedding of the tier recomputation of `create_transaction` (src/main.py
lines 172-175): Bronze unless the new total reaches 60 (Silver), 120 (Gold)
or 200 (Platinum). -/
def tierFor (points : Int) : Tier :=
  if points ≥ 200 then Tier.Platinum
  else if points ≥ 120 then Tier.Gold
  else if points ≥ 60 then Tier.Silver
  else Tier.Bronze

/-- Embedding of `create_transaction` (src/main.py lines 164-179): insert the
transaction, compute the earned points, then either update the first reward
document whose email is the customer's (points accumulated, tier recomputed,
written by `update_one` on its id) or insert a fresh reward with the earned
points and the default Bronze tier. -/
def create_transaction (tx : Transaction) (s : Store) : Store × Nat :=
  let txId := s.nextId
  let s1 := { s with transactions := s.transactions ++ [(txId, tx)], nextId := s.nextId + 1 }
  let pts := earnedPoints tx.amount
  match s1.rewards.find? (fun p => p.2.email == tx.customer_email) with
  | some (rid, r) =>
      let newPoints := r.points + pts
      let tier := tierFor newPoints
      ({ s1 with
          rewards := updateOne (fun p => p.1 == rid)
            (fun p => (p.1, { p.2 with points := newPoints, tier := tier })) s1.rewards },
        txId)
  | none =>
      ({ s1 with
          rewards := s1.rewards ++
            [(s1.nextId, { email := tx.customer_email, points := pts, tier := Tier.Bronze })],
          nextId := s1.nextId + 1 },
        txId)

/-- Query parameters of `list_cars` (src/main.py lines 80-86). -/
structure CarQuery where
  q : Option String := none
  location : Option String := none
  car_type : Option String := none
  min_price : Option ℚ := none
  max_price : Option ℚ := none
  mode : Option String := none
deriving Repr

/-- Substring test on character lists: does `pat` occur contiguously in `l`? -/
def hasSub (l pat : List Char) : Bool :=
  match l with
  | [] => pat.isEmpty
  | _ :: t => pat.isPrefixOf l || hasSub t pat

/-- Case-insensitive substring test.  A Mongo `$regex` whose pattern is a
literal string (no metacharacters) with option `i` matches a field exactly
when the pattern is a case-insensitive substring of it; queries are modelled
as literal patterns. -/
def strContainsCI (field pat : String) : Bool :=
  hasSub field.toLower.toList pat.toLower.toList

/-- The field a price constraint of `list_cars` lands on: `sale_price` when
mode is "sale", otherwise `price_per_day` (src/main.py lines 101-104). -/
inductive PriceField where
  | perDay
  | sale
deriving DecidableEq, Repr

/-- The filter document `flt` built by `list_cars`: each field that can be set
on `flt`, absent constraints matching everything. -/
structure CarFilter where
  qOr : Option String := none
  location : Option String := none
  car_type : Option String := none
  priceField : PriceField := PriceField.perDay
  priceMin : Option ℚ := none
  priceMax : Option ℚ := none
  for_sale : Option Bool := none
  for_rent : Option Bool := none
deriving Repr

/-- Embedding of the filter construction of `list_cars` (src/main.py lines
88-113), mirroring the Python statement by statement (truthiness tests on the
string parameters, price key chosen by mode, mode flags). -/
def buildCarFilter (ps : CarQuery) : CarFilter :=
  let f0 : CarFilter := {}
  let f1 := if strTruthy ps.q then { f0 with qOr := ps.q } else f0
  let f2 := if strTruthy ps.location then { f1 with location := ps.location } else f1
  let f3 := if strTruthy ps.car_type then { f2 with car_type := ps.car_type } else f2
  let f4 :=
    if ps.min_price.isSome || ps.max_price.isSome then
      { f3 with
          priceField := if ps.mode == some "sale" then PriceField.sale else PriceField.perDay,
          priceMin := ps.min_price,
          priceMax := ps.max_price }
    else f3
  let f5 := if ps.mode == some "sale" then { f4 with for_sale := some true } else f4
  let f6 := if ps.mode == some "rent" then { f5 with for_rent := some true } else f5
  f6

/-- The price field of a car selected by the filter. -/
def priceVal (f : PriceField) (c : Car) : Option ℚ :=
  match f with
  | PriceField.perDay => c.price_per_day
  | PriceField.sale => c.sale_price

/-- Modelled from the spec: evaluation of the filter document against a car
document, per the store adapter's `find`.  `$or` over the three regex clauses,
case-insensitive regex on location, equality on car_type, `$gte`/`$lte` on the
selected price field (a document whose price field is absent does not satisfy
a numeric comparison), equality on the mode flags. -/
def carMatchesFilter (flt : CarFilter) (c : Car) : Bool :=
  optMatch flt.qOr
      (fun q => strContainsCI c.title q || strContainsCI c.brand q || strContainsCI c.model q) &&
  optMatch flt.location (fun l => strContainsCI c.location l) &&
  optMatch flt.car_type (fun t => c.car_type == t) &&
  optMatch flt.priceMin
      (fun m => optMatch (priceVal flt.priceField c) (fun p => decide (m ≤ p)) &&
        (priceVal flt.priceField c).isSome) &&
  optMatch flt.priceMax
      (fun m => optMatch (priceVal flt.priceField c) (fun p => decide (p ≤ m)) &&
        (priceVal flt.priceField c).isSome) &&
  optMatch flt.for_sale (fun b => c.for_sale == b) &&
  optMatch flt.for_rent (fun b => c.for_rent == b)

/-- Embedding of `list_cars` (src/main.py lines 79-118): build the filter from
the query parameters and return the matching cars. -/
def list_cars (ps : CarQuery) (s : Store) : List (Nat × Car) :=
  s.cars.filter (fun p => carMatchesFilter (buildCarFilter ps) p.2)

/-- Stated from the spec's words (section 4.1): a car satisfies the search
criteria when it satisfies every supplied criterion: the text query is a
case-insensitive substring of title, brand or model; the location query a
case-insensitive substring of the location; car_type equal; the price bounds
hold of sale_price when mode is "sale" and of price_per_day otherwise;
mode "sale" requires for_sale and mode "rent" requires for_rent. -/
def specCarMatches (ps : CarQuery) (c : Car) : Bool :=
  (!strTruthy ps.q ||
    (strContainsCI c.title (ps.q.getD "") || strContainsCI c.brand (ps.q.getD "") ||
      strContainsCI c.model (ps.q.getD ""))) &&
  (!strTruthy ps.location || strContainsCI c.location (ps.location.getD "")) &&
  (!strTruthy ps.car_type || c.car_type == ps.car_type.getD "") &&
  (optMatch ps.min_price (fun m =>
    optMatch (priceVal (if ps.mode == some "sale" then PriceField.sale else PriceField.perDay) c)
      (fun p => decide (m ≤ p)) &&
    (priceVal (if ps.mode == some "sale" then PriceField.sale else PriceField.perDay) c).isSome)) &&
  (optMatch ps.max_price (fun m =>
    optMatch (priceVal (if ps.mode == some "sale" then PriceField.sale else PriceField.perDay) c)
      (fun p => decide (p ≤ m)) &&
    (priceVal (if ps.mode == some "sale" then PriceField.sale else PriceField.perDay) c).isSome)) &&
  (!(ps.mode == some "sale") || c.for_sale) &&
  (!(ps.mode == some "rent") || c.for_rent)

/-- The loyalty balance visible for an email: the points of the first reward
document with that email, 0 when there is none (mirroring
`existing.get("points", 0)` on src/main.py line 171). -/
def rewardPointsOf (email : String) (s : Store) : Int :=
  match s.rewards.find? (fun p => p.2.email == email) with
  | some p => p.2.points
  | none => 0

/-- Well-formedness of the reward collection as the store adapter maintains
it: identifiers are pairwise distinct and below the id counter. -/
def rewardsWF (s : Store) : Prop :=
  (s.rewards.map Prod.fst).Nodup ∧ ∀ p ∈ s.rewards, p.1 < s.nextId

instance (s : Store) : Decidable (rewardsWF s) := by
  unfold rewardsWF; infer_instance

/-- A sequence of `create_transaction` calls, oldest first. -/
def applyTransactions (txs : List Transaction) (s : Store) : Store :=
  txs.foldl (fun st tx => (create_transaction tx st).1) s

theorem find?_decomp {α : Type} (f : α → Bool) :
    ∀ {l : List α} {b : α}, l.find? f = some b →
      ∃ l₁ l₂, l = l₁ ++ b :: l₂ ∧ (∀ x ∈ l₁, f x = false) ∧ f b = true := by
  intro l
  induction l with
  | nil => intro b h; simp at h
  | cons a t ih =>
      intro b h
      by_cases hf : f a
      · have hab : a = b := by
          have := List.find?_cons_of_pos t hf
          rw [this] at h
          exact Option.some.inj h
        subst hab
        exact ⟨[], t, rfl, by intro x hx; simp at hx, hf⟩
      · have hfa : f a = false := by simpa using hf
        have ht : t.find? f = some b := by
          have := List.find?_cons_of_neg t hf
          rw [this] at h
          exact h
        obtain ⟨l₁, l₂, rfl, h1, h2⟩ := ih ht
        refine ⟨a :: l₁, l₂, rfl, ?_, h2⟩
        intro x hx
        rcases List.mem_cons.mp hx with hx | hx
        · subst hx; exact hfa
        · exact h1 x hx

theorem updateOne_append_cons {α : Type} (f : α → Bool) (g : α → α) (l₂ : List α) (b : α)
    (hb : f b = true) :
    ∀ l₁ : List α, (∀ x ∈ l₁, f x = false) →
      updateOne f g (l₁ ++ b :: l₂) = l₁ ++ g b :: l₂ := by
  intro l₁
  induction l₁ with
  | nil => intro _; simp [updateOne, hb]
  | cons a t ih =>
      intro h1
      have ha : f a = false := h1 a (List.mem_cons_self a t)
      have ht : ∀ x ∈ t, f x = false := fun x hx => h1 x (List.mem_cons_of_mem a hx)
      simp [updateOne, ha, ih ht]

theorem find?_append_cons {α : Type} (f : α → Bool) (l₂ : List α) (b : α)
    (hb : f b = true) :
    ∀ l₁ : List α, (∀ x ∈ l₁, f x = false) →
      (l₁ ++ b :: l₂).find? f = some b := by
  intro l₁
  induction l₁ with
  | nil => intro _; simp [List.find?_cons_of_pos _ hb]
  | cons a t ih =>
      intro h1
      have ha : ¬ (f a = true) := by
        simp [h1 a (List.mem_cons_self a t)]
      have ht : ∀ x ∈ t, f x = false := fun x hx => h1 x (List.mem_cons_of_mem a hx)
      simpa [List.find?_cons_of_neg _ ha] using ih ht

theorem find?_append_right {α : Type} (f : α → Bool) (l₂ : List α) :
    ∀ l₁ : List α, l₁.find? f = none → (l₁ ++ l₂).find? f = l₂.find? f := by
  intro l₁
  induction l₁ with
  | nil => intro _; rfl
  | cons a t ih =>
      intro h
      have ha : ¬ (f a = true) := by
        intro hfa
        rw [List.find?_cons_of_pos t hfa] at h
        exact Option.noConfusion h
      have ht : t.find? f = none := by
        rw [List.find?_cons_of_neg t ha] at h
        exact h
      simpa [List.find?_cons_of_neg _ ha] using ih ht

theorem updateOne_map_fst {α : Type} (f : Nat × α → Bool) (g : Nat × α → α) :
    ∀ l : List (Nat × α),
      (updateOne f (fun p => (p.1, g p)) l).map Prod.fst = l.map Prod.fst := by
  intro l
  induction l with
  | nil => rfl
  | cons a t ih =>
      by_cases hf : f a
      · simp [updateOne, hf]
      · simp [updateOne, hf, ih]

theorem fst_beq_false_of_nodup {α : Type} {l₁ l₂ : List (Nat × α)} {b : Nat × α}
    (h : ((l₁ ++ b :: l₂).map Prod.fst).Nodup) :
    ∀ x ∈ l₁, (x.1 == b.1) = false := by
  intro x hx
  have h' : (l₁.map Prod.fst ++ b.1 :: l₂.map Prod.fst).Nodup := by
    simpa using h
  have hdisj := (List.nodup_append.mp h').2.2
  have hmem : x.1 ∈ l₁.map Prod.fst := List.mem_map_of_mem Prod.fst hx
  have hne : x.1 ≠ b.1 := by
    intro hEq
    exact hdisj hmem (by simp [hEq])
  exact beq_eq_false_iff_ne.mpr hne

theorem one_le_earnedPoints (a : ℚ) : 1 ≤ earnedPoints a :=
  le_max_left 1 ⌊a / 10⌋

theorem create_transaction_some_shape (tx : Transaction) (s : Store) {rid : Nat} {r : Reward}
    (hnd : (s.rewards.map Prod.fst).Nodup)
    (hfind : s.rewards.find? (fun p => p.2.email == tx.customer_email) = some (rid, r)) :
    ∃ l₁ l₂,
      s.rewards = l₁ ++ (rid, r) :: l₂ ∧
      (∀ x ∈ l₁, (x.2.email == tx.customer_email) = false) ∧
      (r.email == tx.customer_email) = true ∧
      (create_transaction tx s).1.rewards
        = l₁ ++ (rid, { email := r.email,
                        points := r.points + earnedPoints tx.amount,
                        tier := tierFor (r.points + earnedPoints tx.amount) }) :: l₂ ∧
      (create_transaction tx s).1.nextId = s.nextId + 1 := by
  obtain ⟨l₁, l₂, hsplit, hfalse, htrue⟩ := find?_decomp _ hfind
  have hnd' : ((l₁ ++ (rid, r) :: l₂).map Prod.fst).Nodup := by rw [hsplit] at hnd; exact hnd
  have hids : ∀ x ∈ l₁, (x.1 == rid) = false := fun x hx =>
    fst_beq_false_of_nodup hnd' x hx
  refine ⟨l₁, l₂, hsplit, hfalse, by simpa using htrue, ?_, ?_⟩
  · show (create_transaction tx s).1.rewards = _
    simp only [create_transaction, hfind]
    rw [hsplit]
    rw [updateOne_append_cons _ _ l₂ (rid, r) (by simp) l₁ hids]
  · simp only [create_transaction, hfind]

theorem create_transaction_none_shape (tx : Transaction) (s : Store)
    (hfind : s.rewards.find? (fun p => p.2.email == tx.customer_email) = none) :
    (create_transaction tx s).1.rewards
      = s.rewards ++
        [(s.nextId + 1,
          { email := tx.customer_email, points := earnedPoints tx.amount,
            tier := Tier.Bronze })] ∧
    (create_transaction tx s).1.nextId = s.nextId + 2 := by
  constructor
  · simp only [create_transaction, hfind]
  · simp only [create_transaction, hfind]

/-- Concrete transaction used by the C1 witness: a negative amount. -/
def txC1 : Transaction :=
  { order_id := 0, customer_email := "ann@x.io", owner_email := "own@x.io", amount := -50 }

/-- Concrete store used by the C1 witness. -/
def sC1 : Store :=
  { rewards := [(3, { email := "ann@x.io", points := 10, tier := Tier.Bronze })], nextId := 4 }

/-- C1: the points earned by `create_transaction` for a payload of amount `a`
equal `max(1, ⌊a / 10⌋)` — the customer's balance grows by exactly that much —
the earned points are at least 1 for every amount (zero and negative amounts
included), and amount 95 earns 9 points while amount 5 earns 1 point. -/
theorem transaction_points_earned :
    (∀ (tx : Transaction) (s : Store), (s.rewards.map Prod.fst).Nodup →
      rewardPointsOf tx.customer_email (create_transaction tx s).1
        = rewardPointsOf tx.customer_email s + max 1 ⌊tx.amount / 10⌋)
    ∧ (∀ a : ℚ, earnedPoints a = max 1 ⌊a / 10⌋ ∧ 1 ≤ earnedPoints a)
    ∧ earnedPoints 95 = 9 ∧ earnedPoints 5 = 1 := by
  refine ⟨?_, fun a => ⟨rfl, one_le_earnedPoints a⟩,
    by norm_num [earnedPoints], by norm_num [earnedPoints]⟩
  intro tx s hnd
  cases hfind : s.rewards.find? (fun p => p.2.email == tx.customer_email) with
  | none =>
      have hshape := (create_transaction_none_shape tx s hfind).1
      unfold rewardPointsOf
      rw [hshape, hfind,
        find?_append_right (fun p => p.2.email == tx.customer_email) _ s.rewards hfind]
      simp [earnedPoints]
  | some p =>
      obtain ⟨rid, r⟩ := p
      obtain ⟨l₁, l₂, hsplit, hfalse, hemail, hres, _⟩ :=
        create_transaction_some_shape tx s hnd hfind
      unfold rewardPointsOf
      rw [hres, hfind,
        find?_append_cons (fun p => p.2.email == tx.customer_email) l₂ _ (by simpa using hemail)
          l₁ hfalse]
      simp [earnedPoints]

/-- Witness for C1 at a negative amount: the balance still grows, by
`max(1, ⌊-50 / 10⌋) = 1`. -/
theorem transaction_points_earned_witness :
    (sC1.rewards.map Prod.fst).Nodup ∧
    rewardPointsOf "ann@x.io" (create_transaction txC1 sC1).1
      = rewardPointsOf "ann@x.io" sC1 + max 1 ⌊(-50 : ℚ) / 10⌋ :=
  ⟨by decide, transaction_points_earned.1 txC1 sC1 (by decide)⟩

/-- Concrete transaction used by the C2 witness: amount 600 earns 60 points. -/
def txC2 : Transaction :=
  { order_id := 1, customer_email := "bob@x.io", owner_email := "own@x.io", amount := 600 }

/-- Concrete store used by the C2 witness: existing points 150. -/
def sC2 : Store :=
  { rewards := [(7, { email := "bob@x.io", points := 150, tier := Tier.Gold })], nextId := 8 }

/-- C2: when the customer already has a reward document with `p` points and the
transaction earns `e` points, `create_transaction` replaces that document's
points with `p + e` and its tier with the one the new total determines:
Platinum at 200 or more, else Gold at 120 or more, else Silver at 60 or more,
else Bronze. -/
theorem transaction_existing_reward_update (tx : Transaction) (s : Store) (rid : Nat) (r : Reward)
    (hnd : (s.rewards.map Prod.fst).Nodup)
    (hfind : s.rewards.find? (fun p => p.2.email == tx.customer_email) = some (rid, r)) :
    (create_transaction tx s).1.rewards.find? (fun p => p.2.email == tx.customer_email)
      = some (rid,
          { email := r.email,
            points := r.points + earnedPoints tx.amount,
            tier :=
              if r.points + earnedPoints tx.amount ≥ 200 then Tier.Platinum
              else if r.points + earnedPoints tx.amount ≥ 120 then Tier.Gold
              else if r.points + earnedPoints tx.amount ≥ 60 then Tier.Silver
              else Tier.Bronze }) := by
  obtain ⟨l₁, l₂, hsplit, hfalse, hemail, hres, _⟩ :=
    create_transaction_some_shape tx s hnd hfind
  rw [hres,
    find?_append_cons (fun p => p.2.email == tx.customer_email) l₂ _ (by simpa using hemail)
      l₁ hfalse]
  rfl

/-- Witness for C2: existing points 150 and amount 600 yield points 210 and
tier Platinum. -/
theorem transaction_existing_reward_update_witness :
    (sC2.rewards.map Prod.fst).Nodup ∧
    sC2.rewards.find? (fun p => p.2.email == "bob@x.io")
      = some (7, { email := "bob@x.io", points := 150, tier := Tier.Gold }) ∧
    (create_transaction txC2 sC2).1.rewards.find? (fun p => p.2.email == "bob@x.io")
      = some (7, { email := "bob@x.io", points := 210, tier := Tier.Platinum }) := by
  refine ⟨by decide, by decide, ?_⟩
  have h := transaction_existing_reward_update txC2 sC2 7
    { email := "bob@x.io", points := 150, tier := Tier.Gold } (by decide) (by decide)
  norm_num [earnedPoints, txC2] at h
  exact h

/-- Concrete transaction used by the C3 witness: a first-ever transaction of
amount 1000. -/
def txC3 : Transaction :=
  { order_id := 2, customer_email := "new@x.io", owner_email := "own@x.io", amount := 1000 }

/-- C3: when the customer has no reward document, `create_transaction` appends
a fresh one whose points are the earned points and whose tier is Bronze,
whatever the earned points are. -/
theorem transaction_new_customer (tx : Transaction) (s : Store)
    (hfind : s.rewards.find? (fun p => p.2.email == tx.customer_email) = none) :
    (create_transaction tx s).1.rewards
      = s.rewards ++
        [(s.nextId + 1,
          { email := tx.customer_email, points := earnedPoints tx.amount,
            tier := Tier.Bronze })] :=
  (create_transaction_none_shape tx s hfind).1

/-- Witness for C3: a first-ever transaction of amount 1000 yields a reward of
100 points at tier Bronze. -/
theorem transaction_new_customer_witness :
    (Store.rewards {}).find? (fun p => p.2.email == "new@x.io") = none ∧
    (create_transaction txC3 {}).1.rewards
      = [(1, { email := "new@x.io", points := 100, tier := Tier.Bronze })] := by
  refine ⟨by decide, ?_⟩
  have h := transaction_new_customer txC3 {} (by decide)
  norm_num [earnedPoints, txC3] at h
  exact h

theorem create_transaction_step (tx : Transaction) (s : Store) (h : rewardsWF s) :
    rewardsWF (create_transaction tx s).1 ∧
    ∀ p ∈ s.rewards, ∃ p' ∈ (create_transaction tx s).1.rewards,
      p'.1 = p.1 ∧ p.2.points ≤ p'.2.points := by
  obtain ⟨hnd, hlt⟩ := h
  cases hfind : s.rewards.find? (fun p => p.2.email == tx.customer_email) with
  | none =>
      obtain ⟨hrw, hnx⟩ := create_transaction_none_shape tx s hfind
      refine ⟨⟨?_, ?_⟩, ?_⟩
      · rw [hrw]
        simp only [List.map_append, List.map_cons, List.map_nil]
        refine List.nodup_append.mpr ⟨hnd, List.nodup_singleton _, ?_⟩
        intro x hx hx'
        simp only [List.mem_singleton] at hx'
        subst hx'
        obtain ⟨p, hp, hp1⟩ := List.mem_map.mp hx
        have := hlt p hp
        omega
      · intro p hp
        rw [hrw] at hp
        rw [hnx]
        rcases List.mem_append.mp hp with hp | hp
        · have := hlt p hp; omega
        · simp only [List.mem_singleton] at hp
          subst hp
          omega
      · intro p hp
        exact ⟨p, by rw [hrw]; exact List.mem_append_left _ hp, rfl, le_refl _⟩
  | some q =>
      obtain ⟨rid, r⟩ := q
      obtain ⟨l₁, l₂, hsplit, hfalse, hemail, hres, hnx⟩ :=
        create_transaction_some_shape tx s hnd hfind
      have hridlt : rid < s.nextId := hlt (rid, r) (by rw [hsplit]; simp)
      refine ⟨⟨?_, ?_⟩, ?_⟩
      · rw [hres]
        rw [hsplit] at hnd
        simpa using hnd
      · intro p hp
        rw [hres] at hp
        rw [hnx]
        rcases List.mem_append.mp hp with hp | hp
        · have : p ∈ s.rewards := by rw [hsplit]; exact List.mem_append_left _ hp
          have := hlt p this
          omega
        · rcases List.mem_cons.mp hp with hp | hp
          · subst hp; simpa using Nat.lt_succ_of_lt hridlt
          · have : p ∈ s.rewards := by
              rw [hsplit]
              exact List.mem_append_right _ (List.mem_cons_of_mem _ hp)
            have := hlt p this
            omega
      · intro p hp
        rw [hsplit] at hp
        rcases List.mem_append.mp hp with hp | hp
        · exact ⟨p, by rw [hres]; exact List.mem_append_left _ hp, rfl, le_refl _⟩
        · rcases List.mem_cons.mp hp with hp | hp
          · subst hp
            have hone := one_le_earnedPoints tx.amount
            refine ⟨(rid, Reward.mk r.email (r.points + earnedPoints tx.amount)
                (tierFor (r.points + earnedPoints tx.amount))), ?_, rfl, ?_⟩
            · rw [hres]
              exact List.mem_append_right _ (List.mem_cons_self _ _)
            · simp only
              linarith
          · exact ⟨p,
              by rw [hres]; exact List.mem_append_right _ (List.mem_cons_of_mem _ hp),
              rfl, le_refl _⟩

/-- Concrete store and transactions used by the C9 witness: a negative and a
zero amount against an existing balance. -/
def sC9 : Store :=
  { rewards := [(2, { email := "carol@x.io", points := 40, tier := Tier.Bronze })], nextId := 3 }

/-- First concrete transaction of the C9 witness. -/
def txC9a : Transaction :=
  { order_id := 5, customer_email := "carol@x.io", owner_email := "own@x.io", amount := -30 }

/-- Second concrete transaction of the C9 witness. -/
def txC9b : Transaction :=
  { order_id := 6, customer_email := "carol@x.io", owner_email := "own@x.io", amount := 0 }

/-- C9: over any sequence of `create_transaction` calls, no reward document's
points ever decrease — every document present before the sequence is present
afterwards, under the same identifier, with at least its old points — for any
transaction amounts, negative ones included. -/
theorem reward_points_monotone :
    ∀ (txs : List Transaction) (s : Store), rewardsWF s →
      rewardsWF (applyTransactions txs s) ∧
      ∀ p ∈ s.rewards, ∃ p' ∈ (applyTransactions txs s).rewards,
        p'.1 = p.1 ∧ p.2.points ≤ p'.2.points := by
  intro txs
  induction txs with
  | nil => intro s h; exact ⟨h, fun p hp => ⟨p, hp, rfl, le_refl _⟩⟩
  | cons tx rest ih =>
      intro s h
      have step := create_transaction_step tx s h
      have hrest := ih (create_transaction tx s).1 step.1
      constructor
      · simpa [applyTransactions] using hrest.1
      · intro p hp
        obtain ⟨p₁, hp₁, hid₁, hle₁⟩ := step.2 p hp
        obtain ⟨p₂, hp₂, hid₂, hle₂⟩ := hrest.2 p₁ hp₁
        exact ⟨p₂, by simpa [applyTransactions] using hp₂,
          hid₂.trans hid₁, hle₁.trans hle₂⟩

/-- Witness for C9 on a two-transaction sequence with amounts -30 and 0. -/
theorem reward_points_monotone_witness :
    rewardsWF sC9 ∧
    (rewardsWF (applyTransactions [txC9a, txC9b] sC9) ∧
      ∀ p ∈ sC9.rewards, ∃ p' ∈ (applyTransactions [txC9a, txC9b] sC9).rewards,
        p'.1 = p.1 ∧ p.2.points ≤ p'.2.points) :=
  ⟨by decide, reward_points_monotone [txC9a, txC9b] sC9 (by decide)⟩

/-- Concrete car listing used by the order witnesses. -/
def carC : Car :=
  { owner_email := "own@x.io", title := "Tesla Model 3", brand := "Tesla",
    model := "Model 3", year := 2022, location := "Berlin" }

/-- Concrete order payload whose car_id (9) references no car of `sC5`. -/
def orderC5 : Order :=
  { order_type := "rent", car_id := 9, customer_email := "cust@x.io",
    owner_email := "own@x.io", total_amount := 120 }

/-- Concrete store used by the C5 witness: a single car with id 5. -/
def sC5 : Store := { cars := [(5, carC)], nextId := 6 }

/-- C5: an order payload whose car_id references no existing car fails with
NotFound; the 404 is raised before any write, so no order and no notification
is created (the embedding writes only in the ok branch). -/
theorem order_missing_car_notFound (o : Order) (s : Store)
    (h : ∀ p ∈ s.cars, p.1 ≠ o.car_id) :
    create_order o s = Except.error Err.notFound := by
  have hfind : s.cars.find? (fun p => p.1 == o.car_id) = none :=
    List.find?_eq_none.mpr (fun x hx => by simpa using h x hx)
  simp [create_order, hfind]

/-- Witness for C5: ordering car 9 against a store holding only car 5. -/
theorem order_missing_car_notFound_witness :
    (∀ p ∈ sC5.cars, p.1 ≠ orderC5.car_id) ∧
    create_order orderC5 sC5 = Except.error Err.notFound :=
  ⟨by decide, order_missing_car_notFound orderC5 sC5 (by decide)⟩

/-- Concrete order payload whose car_id (5) exists in `sC5`. -/
def orderC6 : Order :=
  { order_type := "buy", car_id := 5, customer_email := "cust@x.io",
    owner_email := "own@x.io", total_amount := 30000 }

/-- C6: when the car exists, `create_order` persists exactly the caller's order
under a fresh id, creates exactly one notification whose recipient is the
order's owner_email and whose message names the order type, and returns the
new order's id. -/
theorem order_create_success (o : Order) (s : Store)
    (h : (s.cars.find? (fun p => p.1 == o.car_id)).isSome) :
    create_order o s = Except.ok
      ({ s with
          orders := s.orders ++ [(s.nextId, o)],
          notifications := s.notifications ++
            [(s.nextId + 1,
              { email := o.owner_email, title := "New order",
                message := "You have a new " ++ o.order_type ++ " request",
                read := false })],
          nextId := s.nextId + 2 }, s.nextId) := by
  obtain ⟨c, hc⟩ := Option.isSome_iff_exists.mp h
  simp [create_order, hc]

/-- Witness for C6: a buy order for the existing car 5. -/
theorem order_create_success_witness :
    (sC5.cars.find? (fun p => p.1 == orderC6.car_id)).isSome = true ∧
    create_order orderC6 sC5 = Except.ok
      ({ sC5 with
          orders := [(6, orderC6)],
          notifications := [(7,
            { email := "own@x.io", title := "New order",
              message := "You have a new buy request", read := false })],
          nextId := 8 }, 6) :=
  ⟨by decide, order_create_success orderC6 sC5 (by decide)⟩

/-- Concrete car with both listing flags false, used by the C7 witness. -/
def carC7 : Car := { carC with for_rent := false, for_sale := false }

/-- C7: car creation fails with Validation exactly when for_rent and for_sale
are both false; otherwise the car is persisted and its id returned. -/
theorem car_create_validation (car : Car) (s : Store) :
    (car.for_sale = false ∧ car.for_rent = false →
      create_car car s = Except.error Err.validation) ∧
    (car.for_sale = true ∨ car.for_rent = true →
      create_car car s = Except.ok
        ({ s with cars := s.cars ++ [(s.nextId, car)], nextId := s.nextId + 1 }, s.nextId)) := by
  constructor
  · rintro ⟨h1, h2⟩
    simp [create_car, h1, h2]
  · intro h
    rcases h with h | h <;> simp [create_car, h]

/-- Witness for C7: a car that is neither for rent nor for sale is rejected. -/
theorem car_create_validation_witness :
    (carC7.for_sale = false ∧ carC7.for_rent = false) ∧
    create_car carC7 {} = Except.error Err.validation :=
  ⟨⟨rfl, rfl⟩, (car_create_validation carC7 {}).1 ⟨rfl, rfl⟩⟩

/-- Concrete completed order used by the C8 witness. -/
def orderC8 : Order :=
  { order_type := "rent", car_id := 5, customer_email := "cust@x.io",
    owner_email := "own@x.io", status := "completed", total_amount := 10 }

/-- Concrete store used by the C8 witness. -/
def sC8 : Store := { orders := [(4, orderC8)], nextId := 5 }

/-- C8: the status update sets the matched order's status to the given string
unconditionally — any string, with no transition check — and fails with
NotFound, changing nothing, exactly when no order has the identifier. -/
theorem order_status_update (oid : Nat) (st : String) (s : Store) :
    ((∀ p ∈ s.orders, p.1 ≠ oid) →
      update_order_status oid st s = Except.error Err.notFound) ∧
    (∀ l₁ o l₂, s.orders = l₁ ++ (oid, o) :: l₂ → (∀ x ∈ l₁, x.1 ≠ oid) →
      update_order_status oid st s
        = Except.ok { s with orders := l₁ ++ (oid, { o with status := st }) :: l₂ }) := by
  constructor
  · intro h
    have hany : s.orders.any (fun p => p.1 == oid) = false := by
      rw [List.any_eq_false]
      intro x hx
      simpa using h x hx
    simp [update_order_status, hany]
  · intro l₁ o l₂ hsplit hids
    have hany : s.orders.any (fun p => p.1 == oid) = true := by
      rw [hsplit, List.any_eq_true]
      exact ⟨(oid, o), List.mem_append_right _ (List.mem_cons_self _ _), by simp⟩
    have hup : updateOne (fun p => p.1 == oid)
        (fun p => (p.1, { p.2 with status := st })) s.orders
        = l₁ ++ (oid, { o with status := st }) :: l₂ := by
      rw [hsplit]
      exact updateOne_append_cons _ _ l₂ (oid, o) (by simp) l₁
        (fun x hx => beq_eq_false_iff_ne.mpr (hids x hx))
    simp [update_order_status, hany, hup]

/-- Witness for C8: the backwards transition completed → pending is applied. -/
theorem order_status_update_witness :
    sC8.orders = [] ++ (4, orderC8) :: [] ∧
    update_order_status 4 "pending" sC8
      = Except.ok { sC8 with orders := [] ++ (4, { orderC8 with status := "pending" }) :: [] } :=
  ⟨rfl, (order_status_update 4 "pending" sC8).2 [] orderC8 [] rfl (by decide)⟩

/-- C10: when the role parameter is neither exactly "customer" nor exactly
"owner", `list_orders` ignores the email and returns every order. -/
theorem orders_list_unfiltered (email role : Option String) (s : Store)
    (h1 : role ≠ some "customer") (h2 : role ≠ some "owner") :
    list_orders email role s = s.orders := by
  have hb1 : (role == some "customer") = false := beq_eq_false_iff_ne.mpr h1
  have hb2 : (role == some "owner") = false := beq_eq_false_iff_ne.mpr h2
  simp [list_orders, buildOrderFilter, hb1, hb2, optMatch]

/-- Witness for C10: a supplied email with role "admin" returns all orders. -/
theorem orders_list_unfiltered_witness :
    (some "admin" ≠ some "customer") ∧ (some "admin" ≠ some "owner") ∧
    list_orders (some "cust@x.io") (some "admin") sC8 = sC8.orders :=
  ⟨by decide, by decide,
    orders_list_unfiltered (some "cust@x.io") (some "admin") sC8 (by decide) (by decide)⟩

theorem optMatch_getD_of_truthy (q : Option String) (p : String → Bool)
    (h : strTruthy q = true) : optMatch q p = p (q.getD "") := by
  cases q
  · simp [strTruthy] at h
  · rfl

theorem optMatch_none {α : Type} (p : α → Bool) : optMatch none p = true := rfl

theorem optMatch_some {α : Type} (a : α) (p : α → Bool) : optMatch (some a) p = p a := rfl

theorem beq_false_of_ne {α : Type} [BEq α] [LawfulBEq α] {a b : α} (h : ¬ a = b) :
    (a == b) = false :=
  beq_eq_false_iff_ne.mpr h

theorem carFilter_eq_spec (ps : CarQuery) (c : Car) :
    carMatchesFilter (buildCarFilter ps) c = specCarMatches ps c := by
  obtain ⟨q, loc, ctype, minp, maxp, mode⟩ := ps
  by_cases hs : mode == some "sale" <;>
  by_cases hr : mode == some "rent" <;>
  by_cases hq : strTruthy q <;>
  by_cases hl : strTruthy loc <;>
  by_cases ht : strTruthy ctype <;>
  cases minp <;> cases maxp <;>
  simp_all [carMatchesFilter, buildCarFilter, specCarMatches, optMatch_getD_of_truthy,
    optMatch_none, optMatch_some, Bool.and_assoc, beq_false_of_ne]

/-- C4: the car search returns exactly the cars satisfying the conjunction of
the supplied criteria — the text query matching by case-insensitive substring
of title, brand or model — and with no parameters supplied it returns every
car. -/
theorem cars_search_conjunction :
    (∀ (ps : CarQuery) (s : Store),
      list_cars ps s = s.cars.filter (fun p => specCarMatches ps p.2)) ∧
    (∀ s : Store, list_cars {} s = s.cars) := by
  have key : ∀ (ps : CarQuery) (s : Store),
      list_cars ps s = s.cars.filter (fun p => specCarMatches ps p.2) := by
    intro ps s
    unfold list_cars
    exact List.filter_congr (fun p _ => carFilter_eq_spec ps p.2)
  refine ⟨key, fun s => ?_⟩
  rw [key]
  simp [specCarMatches, strTruthy, optMatch]

end CarMarketplace
